import Mathlib

/-!
Shallow embedding of the voice_orb repository's core logic.

The embedding covers:
* `VoiceActivityDetector` from `src/voice-orb-vad.js`: its configuration,
  mutable state, the per-sample algorithm `processVoiceActivity`, and the
  lifecycle operations `start`, `stop`, `resetVADState`.
* `VoiceOrbCore` from the core controller file: configuration, state,
  `isReady`, `setSpeed`, `setVoiceLevel`, `play`, `pause`.
* The `VoiceOrbAdvanced.setupVADHandlers` wiring of VAD events to
  controller calls.

Audio levels are modelled as rationals, wall-clock timestamps (`Date.now()`
milliseconds) as integers.  Event emission is modelled by returning the list
of events an operation triggers, in emission order; `stop` additionally
returns its full trace of state mutations and emissions, since its claims
concern the order of those actions.
-/

namespace VoiceOrb

/-- Configuration of the voice activity detector (`this.config` in
`voice-orb-vad.js`). -/
structure Config where
  threshold : ℚ
  minDuration : ℤ
  maxSilence : ℤ
  sensitivity : ℚ
  smoothing : ℚ
  deriving DecidableEq, Repr

/-- The default configuration from the `VoiceActivityDetector` constructor:
threshold 0.01, minDuration 150, maxSilence 800, sensitivity 0.6,
smoothing 0.85. -/
def defaultConfig : Config :=
  { threshold := 1/100, minDuration := 150, maxSilence := 800,
    sensitivity := 3/5, smoothing := 17/20 }

/-- Mutable detector state (`this.state` in `voice-orb-vad.js`).
`animationFrame` models whether `this.animationFrame` is non-null. -/
structure VADState where
  isActive : Bool
  isVoiceDetected : Bool
  currentLevel : ℚ
  smoothedLevel : ℚ
  lastVoiceTime : ℤ
  voiceStartTime : ℤ
  silenceStartTime : ℤ
  isConnected : Bool
  animationFrame : Bool
  deriving DecidableEq, Repr

/-- The state set up by the `VoiceActivityDetector` constructor. -/
def vadInit : VADState :=
  { isActive := false, isVoiceDetected := false, currentLevel := 0,
    smoothedLevel := 0, lastVoiceTime := 0, voiceStartTime := 0,
    silenceStartTime := 0, isConnected := false, animationFrame := false }

/-- Events emitted by the detector via `trigger`. -/
inductive VADEvent where
  | voiceLevel (raw smoothed : ℚ) (timestamp : ℤ)
  | voiceStart
  | voiceEnd
  deriving DecidableEq, Repr

/-- The exponential smoothing update
`smoothedLevel * smoothing + level * (1 - smoothing)` (line 214). -/
def smoothStep (cfg : Config) (prev level : ℚ) : ℚ :=
  prev * cfg.smoothing + level * (1 - cfg.smoothing)

/-- `processVoiceActivity(level)` (lines 210-265), with the wall clock
`Date.now()` passed in explicitly as `now`.  Returns the updated state and
the list of emitted events in emission order. -/
def processVoiceActivity (cfg : Config) (s0 : VADState) (level : ℚ) (now : ℤ) :
    VADState × List VADEvent :=
  let sm := smoothStep cfg s0.smoothedLevel level
  let s1 : VADState := { s0 with smoothedLevel := sm, currentLevel := level }
  -- threshold branch (lines 226-253)
  let branch : VADState × List VADEvent :=
    if cfg.threshold < sm then
      let s2 := { s1 with lastVoiceTime := now }
      if s2.isVoiceDetected = false then
        if s2.voiceStartTime = 0 then
          ({ s2 with voiceStartTime := now }, [])
        else if cfg.minDuration ≤ now - s2.voiceStartTime then
          ({ s2 with isVoiceDetected := true, silenceStartTime := 0 },
            [VADEvent.voiceStart])
        else
          (s2, [])
      else
        (s2, [])
    else
      let s2 := if s1.isVoiceDetected = true ∧ s1.silenceStartTime = 0 then
          { s1 with silenceStartTime := now } else s1
      let s3 := if s2.isVoiceDetected = false then
          { s2 with voiceStartTime := 0 } else s2
      (s3, [])
  -- silence check (lines 256-264)
  let s4 := branch.1
  let final : VADState × List VADEvent :=
    if s4.isVoiceDetected = true ∧ 0 < s4.silenceStartTime then
      if cfg.maxSilence ≤ now - s4.silenceStartTime then
        ({ s4 with
            isVoiceDetected := false, voiceStartTime := 0, silenceStartTime := 0 },
          [VADEvent.voiceEnd])
      else
        (s4, [])
    else
      (s4, [])
  (final.1, VADEvent.voiceLevel level sm now :: (branch.2 ++ final.2))

/-- One tick of `startAnalysis` (lines 181-204): the raw normalized level is
scaled by `sensitivity` before being handed to `processVoiceActivity`. -/
def processSample (cfg : Config) (s : VADState) (raw : ℚ) (now : ℤ) :
    VADState × List VADEvent :=
  processVoiceActivity cfg s (raw * cfg.sensitivity) now

/-- `resetVADState()` (lines 270-277). -/
def resetVADState (s : VADState) : VADState :=
  { s with
    isVoiceDetected := false, lastVoiceTime := 0, voiceStartTime := 0,
    silenceStartTime := 0, currentLevel := 0, smoothedLevel := 0 }

/-- `start()` (lines 107-126).  Returns the new state, the boolean result,
and whether `startAnalysis()` was invoked (i.e. a tick loop was started). -/
def start (s : VADState) : VADState × Bool × Bool :=
  if s.isConnected = false then
    (s, false, false)
  else if s.isActive = true then
    (s, true, false)
  else
    let s1 := resetVADState s
    ({ s1 with isActive := true, animationFrame := true }, true, true)

/-- The individual state mutations and emissions performed by `stop()`,
in source order. -/
inductive StopAction where
  | setActive (b : Bool)
  | cancelFrame
  | setVoiceDetected (b : Bool)
  | emit (e : VADEvent)
  deriving DecidableEq, Repr

/-- `stop()` (lines 132-152).  Returns the new state, the ordered trace of
actions performed, and the boolean result. -/
def stop (s : VADState) : VADState × List StopAction × Bool :=
  if s.isActive = false then
    (s, [], true)
  else
    let s1 := { s with isActive := false }
    let acts1 := [StopAction.setActive false]
    let step2 : VADState × List StopAction :=
      if s1.animationFrame = true then
        ({ s1 with animationFrame := false }, [StopAction.cancelFrame])
      else
        (s1, [])
    let step3 : VADState × List StopAction :=
      if step2.1.isVoiceDetected = true then
        ({ step2.1 with isVoiceDetected := false },
          [StopAction.setVoiceDetected false, StopAction.emit VADEvent.voiceEnd])
      else
        (step2.1, [])
    (step3.1, acts1 ++ step2.2 ++ step3.2, true)

/-- Process a list of `(level, now)` samples, recording after each step the
resulting state and the events that step emitted. -/
def vadRun (cfg : Config) : VADState → List (ℚ × ℤ) → List (VADState × List VADEvent)
  | _, [] => []
  | s, (l, t) :: rest =>
      let step := processVoiceActivity cfg s l t
      step :: vadRun cfg step.1 rest

/-- The state after processing a list of samples. -/
def vadRunState (cfg : Config) (s : VADState) (inputs : List (ℚ × ℤ)) : VADState :=
  inputs.foldl (fun st p => (processVoiceActivity cfg st p.1 p.2).1) s

/-- The per-step event lists of a run. -/
def vadRunEvents (cfg : Config) (s : VADState) (inputs : List (ℚ × ℤ)) :
    List (List VADEvent) :=
  (vadRun cfg s inputs).map Prod.snd

/-- The maximum level occurring in a sample list (0 for the empty list). -/
def maxLevel (inputs : List (ℚ × ℤ)) : ℚ :=
  inputs.foldr (fun p m => max p.1 m) 0

/-- The configuration used by the spec's concrete scenarios:
`{threshold:0.1, minDuration:100, maxSilence:200, sensitivity:1, smoothing:0}`. -/
def cfgEx : Config :=
  { threshold := 1/10, minDuration := 100, maxSilence := 200,
    sensitivity := 1, smoothing := 0 }

/-- Configuration of the animation controller (`this.config` in the
`VoiceOrbCore` constructor). -/
structure OrbConfig where
  defaultSpeed : ℚ
  minSpeed : ℚ
  maxSpeed : ℚ
  minOpacity : ℚ
  maxOpacity : ℚ
  minVoiceLevel : ℚ
  maxVoiceLevel : ℚ
  deriving DecidableEq, Repr

/-- The controller's default configuration: speeds in [0.1, 3], opacity in
[0.8, 1.0], voice level in [0.1, 3]. -/
def orbDefaultConfig : OrbConfig :=
  { defaultSpeed := 1, minSpeed := 1/10, maxSpeed := 3,
    minOpacity := 4/5, maxOpacity := 1, minVoiceLevel := 1/10,
    maxVoiceLevel := 3 }

/-- Animation controller state (`this.state` of `VoiceOrbCore`, together
with the observable effects on the wrapped player: its `speed` property and
its `style.opacity`).  `playerPresent` models `this.player !== null`. -/
structure OrbState where
  isInitialized : Bool
  playerPresent : Bool
  isPlaying : Bool
  isLooping : Bool
  currentSpeed : ℚ
  voiceLevel : ℚ
  opacity : ℚ
  playerSpeed : ℚ
  playerOpacity : ℚ
  deriving DecidableEq, Repr

/-- `isReady()`: `this.state.isInitialized && this.player !== null`. -/
def isReady (s : OrbState) : Bool :=
  s.isInitialized && s.playerPresent

/-- Events emitted by the animation controller via `trigger`. -/
inductive OrbEvent where
  | play
  | pause
  | speedChange (speed : ℚ)
  | opacityChange (opacity : ℚ)
  | voiceChange (level opacity : ℚ)
  deriving DecidableEq, Repr

/-- The `Math.max(lo, Math.min(hi, x))` clamping pattern used throughout
`VoiceOrbCore`. -/
def clamp (lo hi x : ℚ) : ℚ :=
  max lo (min hi x)

/-- `play()`. -/
def play (s : OrbState) : OrbState × List OrbEvent × Bool :=
  if isReady s = false then
    (s, [], false)
  else
    ({ s with isPlaying := true }, [OrbEvent.play], true)

/-- `pause()`. -/
def pause (s : OrbState) : OrbState × List OrbEvent × Bool :=
  if isReady s = false then
    (s, [], false)
  else
    ({ s with isPlaying := false }, [OrbEvent.pause], true)

/-- `setSpeed(speed)` (lines 786-801 of the core controller). -/
def setSpeed (cfg : OrbConfig) (s : OrbState) (speed : ℚ) :
    OrbState × List OrbEvent × Bool :=
  if isReady s = false then
    (s, [], false)
  else
    let clampedSpeed := clamp cfg.minSpeed cfg.maxSpeed speed
    ({ s with playerSpeed := clampedSpeed, currentSpeed := clampedSpeed },
      [OrbEvent.speedChange clampedSpeed], true)

/-- `setVoiceLevel(level)` (lines 828-854 of the core controller): clamps
the level, delegates to `setSpeed` with the clamped level, then updates the
player opacity to `clamp(clampedLevel / 2)` and emits `voiceChange`. -/
def setVoiceLevel (cfg : OrbConfig) (s : OrbState) (level : ℚ) :
    OrbState × List OrbEvent × Bool :=
  if isReady s = false then
    (s, [], false)
  else
    let clampedLevel := clamp cfg.minVoiceLevel cfg.maxVoiceLevel level
    let speedStep := setSpeed cfg s clampedLevel
    let opacity := clamp cfg.minOpacity cfg.maxOpacity (clampedLevel / 2)
    ({ speedStep.1 with
        playerOpacity := opacity, voiceLevel := clampedLevel,
        opacity := opacity },
      speedStep.2.1 ++ [OrbEvent.voiceChange clampedLevel opacity], true)

/-- The controller operations the orchestrator can invoke on the orb. -/
inductive ControllerCall where
  | callPlay
  | callPause
  | callSetVoiceLevel (level : ℚ)
  deriving DecidableEq, Repr

/-- `VoiceOrbAdvanced.setupVADHandlers()`: the controller calls made in
response to one VAD event.  `voiceLevel` maps the smoothed level through
`Math.max(0.1, Math.min(3, smoothed * 3))`. -/
def handleVADEvent : VADEvent → List ControllerCall
  | VADEvent.voiceStart => [ControllerCall.callPlay]
  | VADEvent.voiceEnd => [ControllerCall.callPause]
  | VADEvent.voiceLevel _ smoothed _ =>
      [ControllerCall.callSetVoiceLevel (clamp (1/10) 3 (smoothed * 3))]

/-- A detector state in an active voice period with a running silence
candidate: voice started from a candidate at t=1, silence candidate began at
t=151 (the state reached by the spec scenario after samples at t=1, 101,
151). -/
def sSilence : VADState :=
  { vadInit with
    isActive := true, isConnected := true, animationFrame := true,
    isVoiceDetected := true, lastVoiceTime := 101, voiceStartTime := 1,
    silenceStartTime := 151 }

/-- A detector state with a pending start candidate from t=1 and no voice
detected yet. -/
def sCand : VADState :=
  { vadInit with voiceStartTime := 1 }

/-- A connected, already-active detector state with voice detected (for the
`start` idempotence witness). -/
def sConnActive : VADState :=
  { vadInit with
    isConnected := true, isActive := true, animationFrame := true,
    isVoiceDetected := true }

/-- An initialized controller state with a player attached. -/
def orbReady : OrbState :=
  { isInitialized := true, playerPresent := true, isPlaying := false,
    isLooping := true, currentSpeed := 1, voiceLevel := 1, opacity := 1,
    playerSpeed := 1, playerOpacity := 1 }

/-- A controller state that is not ready (never initialized). -/
def orbNotReady : OrbState :=
  { orbReady with isInitialized := false }

/-! ## Helper lemmas about a single `processVoiceActivity` step -/

/-- The smoothed level stored after a step is exactly the smoothing update of
the previous smoothed level with the incoming level. -/
lemma process_smoothedLevel (cfg : Config) (s : VADState) (level : ℚ) (now : ℤ) :
    (processVoiceActivity cfg s level now).1.smoothedLevel =
      smoothStep cfg s.smoothedLevel level := by
  simp only [processVoiceActivity]
  split_ifs <;> simp_all

/-- Every `voiceLevel` event a step emits carries the incoming raw level, its
smoothing update, and the step's timestamp. -/
lemma process_voiceLevel_mem (cfg : Config) (s : VADState) (level : ℚ) (now : ℤ)
    (raw sm : ℚ) (ts : ℤ)
    (h : VADEvent.voiceLevel raw sm ts ∈ (processVoiceActivity cfg s level now).2) :
    raw = level ∧ sm = smoothStep cfg s.smoothedLevel level ∧ ts = now := by
  simp only [processVoiceActivity] at h
  split_ifs at h <;> simp_all

/-- If the state satisfies "no voice implies no silence timer", so does the
state after one processing step. -/
lemma process_silence_inv (cfg : Config) (s : VADState) (level : ℚ) (now : ℤ)
    (hinv : s.isVoiceDetected = false → s.silenceStartTime = 0)
    (hdet : (processVoiceActivity cfg s level now).1.isVoiceDetected = false) :
    (processVoiceActivity cfg s level now).1.silenceStartTime = 0 := by
  simp only [processVoiceActivity] at hdet ⊢
  split_ifs at hdet ⊢ <;> simp_all

/-- The "no voice implies no silence timer" invariant propagates through a
whole run. -/
lemma vadRunState_silence_inv (cfg : Config) :
    ∀ (inputs : List (ℚ × ℤ)) (s : VADState),
      (s.isVoiceDetected = false → s.silenceStartTime = 0) →
      (vadRunState cfg s inputs).isVoiceDetected = false →
      (vadRunState cfg s inputs).silenceStartTime = 0
  | [], _, hinv => hinv
  | (l, t) :: rest, s, hinv =>
      vadRunState_silence_inv cfg rest (processVoiceActivity cfg s l t).1
        (process_silence_inv cfg s l t hinv)

/-- The clamp pattern `max lo (min hi x)` agrees with `min hi (max lo x)`
whenever `lo ≤ hi`. -/
lemma clamp_eq_min_max (lo hi x : ℚ) (h : lo ≤ hi) :
    clamp lo hi x = min hi (max lo x) := by
  unfold clamp
  rw [max_min_distrib_left, max_eq_right h]

/-- The smoothing update is a convex combination: for a smoothing
coefficient in [0, 1] and nonnegative arguments it stays nonnegative and
never exceeds the larger of the previous value and the incoming level. -/
lemma smoothStep_bounds (cfg : Config) (prev level : ℚ)
    (h0 : 0 ≤ cfg.smoothing) (h1 : cfg.smoothing ≤ 1)
    (hp : 0 ≤ prev) (hl : 0 ≤ level) :
    0 ≤ smoothStep cfg prev level ∧ smoothStep cfg prev level ≤ max prev level := by
  unfold smoothStep
  constructor
  · have ha := mul_nonneg hp h0
    have hb := mul_nonneg hl (by linarith : (0 : ℚ) ≤ 1 - cfg.smoothing)
    linarith
  · have ha := mul_le_mul_of_nonneg_right (le_max_left prev level) h0
    have hb := mul_le_mul_of_nonneg_right (le_max_right prev level)
      (by linarith : (0 : ℚ) ≤ 1 - cfg.smoothing)
    nlinarith [ha, hb]

/-- The running maximum of a sample list is nonnegative. -/
lemma maxLevel_nonneg : ∀ (inputs : List (ℚ × ℤ)), 0 ≤ maxLevel inputs
  | [] => le_refl 0
  | p :: rest => le_trans (maxLevel_nonneg rest) (le_max_right p.1 (maxLevel rest))

/-- Every `voiceLevel` event emitted at step `i` of a run carries a smoothed
value that is nonnegative and bounded by the larger of the starting smoothed
level and the maximum level among the first `i+1` samples. -/
lemma vadRun_voiceLevel_bounds (cfg : Config) :
    ∀ (inputs : List (ℚ × ℤ)) (s : VADState),
      0 ≤ cfg.smoothing → cfg.smoothing ≤ 1 →
      (∀ p ∈ inputs, 0 ≤ p.1) → 0 ≤ s.smoothedLevel →
      ∀ (i : ℕ) (st : VADState) (es : List VADEvent),
        (vadRun cfg s inputs).get? i = some (st, es) →
        ∀ (raw sm : ℚ) (ts : ℤ), VADEvent.voiceLevel raw sm ts ∈ es →
        0 ≤ sm ∧ sm ≤ max s.smoothedLevel (maxLevel (List.take (i + 1) inputs)) := by
  intro inputs
  induction inputs with
  | nil =>
      intro s _ _ _ _ i st es hget
      simp [vadRun] at hget
  | cons p rest ih =>
      obtain ⟨l, t⟩ := p
      intro s h0 h1 hin hs i st es hget raw sm ts hmem
      have hl0 : 0 ≤ l := hin (l, t) (by simp)
      have hb := smoothStep_bounds cfg s.smoothedLevel l h0 h1 hs hl0
      match i with
      | 0 =>
          have hpair : processVoiceActivity cfg s l t = (st, es) :=
            Option.some.inj hget
          have hes : es = (processVoiceActivity cfg s l t).2 := by rw [hpair]
          rw [hes] at hmem
          obtain ⟨-, hsm, -⟩ := process_voiceLevel_mem cfg s l t raw sm ts hmem
          subst hsm
          refine ⟨hb.1, le_trans hb.2 ?_⟩
          have : maxLevel (List.take 1 ((l, t) :: rest)) = max l 0 := rfl
          rw [this]
          exact max_le_max (le_refl _) (le_max_left _ _)
      | Nat.succ i =>
          have hget' :
              (vadRun cfg (processVoiceActivity cfg s l t).1 rest).get? i =
                some (st, es) := hget
          have hs' : 0 ≤ (processVoiceActivity cfg s l t).1.smoothedLevel := by
            rw [process_smoothedLevel]; exact hb.1
          have hres := ih (processVoiceActivity cfg s l t).1 h0 h1
            (fun q hq => hin q (List.mem_cons_of_mem _ hq)) hs'
            i st es hget' raw sm ts hmem
          refine ⟨hres.1, le_trans hres.2 ?_⟩
          have hsm' : (processVoiceActivity cfg s l t).1.smoothedLevel ≤
              max s.smoothedLevel l := by
            rw [process_smoothedLevel]; exact hb.2
          have htake : maxLevel (List.take (i + 1 + 1) ((l, t) :: rest)) =
              max l (maxLevel (List.take (i + 1) rest)) := rfl
          rw [htake, ← max_assoc]
          exact max_le_max hsm' (le_refl _)

/-! ## Claim theorems -/

/-- Claim C2: once the silence-candidate timer is set, a processing step
leaves it unchanged unless that step fires the `voiceStart` transition or the
`voiceEnd` transition itself; in particular a single above-threshold sample
does not clear a running silence timer. -/
theorem C2_silence_timer_persistence (cfg : Config) (s : VADState)
    (level : ℚ) (now : ℤ) (hne : s.silenceStartTime ≠ 0)
    (hs : VADEvent.voiceStart ∉ (processVoiceActivity cfg s level now).2)
    (he : VADEvent.voiceEnd ∉ (processVoiceActivity cfg s level now).2) :
    (processVoiceActivity cfg s level now).1.silenceStartTime =
      s.silenceStartTime := by
  simp only [processVoiceActivity] at hs he ⊢
  split_ifs at hs he ⊢ <;> simp_all

/-- Witness for C2: in the spec scenario's config, an above-threshold sample
at t=200 during an active voice period leaves the silence timer started at
t=151 untouched. -/
theorem C2_silence_timer_persistence_witness :
    (processVoiceActivity cfgEx sSilence (1/2) 200).1.silenceStartTime =
      sSilence.silenceStartTime :=
  C2_silence_timer_persistence cfgEx sSilence (1/2) 200 (by decide)
    (by norm_num [processVoiceActivity, smoothStep, cfgEx, sSilence, vadInit] <;> simp)
    (by norm_num [processVoiceActivity, smoothStep, cfgEx, sSilence, vadInit] <;> simp)

/-- Claim C1 (counterexample): in the spec scenario configuration, starting
from the reset state and feeding 0.5 at t=1, 0.5 at t=101 (voice starts),
0 at t=151, 0.5 at t=200 and 0 at t=351, a `voiceEnd` fires at t=351 even
though the sample at t=200 — which lies inside the trailing `maxSilence`
window [151, 351] — had smoothed level 0.5, strictly above the threshold.
The below-threshold interval before this `voiceEnd` is therefore not
contiguous, refuting the claim as stated. -/
theorem C1_counterexample :
    vadRunEvents cfgEx vadInit [(1/2, 1), (1/2, 101), (0, 151), (1/2, 200), (0, 351)] =
      [[VADEvent.voiceLevel (1/2) (1/2) 1],
       [VADEvent.voiceLevel (1/2) (1/2) 101, VADEvent.voiceStart],
       [VADEvent.voiceLevel 0 0 151],
       [VADEvent.voiceLevel (1/2) (1/2) 200],
       [VADEvent.voiceLevel 0 0 351, VADEvent.voiceEnd]] ∧
    cfgEx.threshold < (1/2 : ℚ) ∧ (351 : ℤ) - cfgEx.maxSilence ≤ 200 := by
  refine ⟨?_, by norm_num [cfgEx], by decide⟩
  norm_num [vadRunEvents, vadRun, processVoiceActivity, smoothStep, cfgEx, vadInit]

/-- Claim C1 (amended): while voice is detected, a `voiceEnd` fires only when
at least `maxSilence` has elapsed since `silenceStartTime` — the timestamp at
which the silence-candidate timer was started, which is always a step whose
smoothed level was at or below the threshold during an active voice period.
Contiguity is not guaranteed: intermediate above-threshold samples do not
clear the running timer. -/
theorem C1_amended (cfg : Config) (s : VADState) (level : ℚ) (now : ℤ)
    (hms : 0 < cfg.maxSilence) :
    (VADEvent.voiceEnd ∈ (processVoiceActivity cfg s level now).2 →
      s.isVoiceDetected = true ∧ 0 < s.silenceStartTime ∧
        cfg.maxSilence ≤ now - s.silenceStartTime) ∧
    (s.silenceStartTime = 0 →
      (processVoiceActivity cfg s level now).1.silenceStartTime ≠ 0 →
      s.isVoiceDetected = true ∧
        smoothStep cfg s.smoothedLevel level ≤ cfg.threshold ∧
        (processVoiceActivity cfg s level now).1.silenceStartTime = now) := by
  constructor
  · intro he
    simp only [processVoiceActivity] at he
    split_ifs at he <;> simp_all <;> omega
  · intro h0 hne
    simp only [processVoiceActivity] at hne ⊢
    split_ifs at hne ⊢ <;> simp_all <;> omega

/-- Witness for the amended C1: the `voiceEnd` fired at t=351 from the
silence-running state has its timer at 151 with 351 - 151 ≥ maxSilence. -/
theorem C1_amended_witness :
    sSilence.isVoiceDetected = true ∧ 0 < sSilence.silenceStartTime ∧
      cfgEx.maxSilence ≤ (351 : ℤ) - sSilence.silenceStartTime :=
  (C1_amended cfgEx sSilence 0 351 (by decide)).1
    (by norm_num [processVoiceActivity, smoothStep, cfgEx, sSilence, vadInit] <;> simp)

/-- Claim C3 (counterexample): the spec scenario's literal timestamps make
the claim false.  Feeding 0.5 at t=0, 50, 100 and then 0 at t=150, 250, 350
emits only `voiceLevel` events — no `voiceStart` at t=100 and no `voiceEnd`
at t=350 — because the first tick's timestamp 0 coincides with the
`voiceStartTime === 0` "unset" sentinel, so the start candidate recorded at
t=0 does not stick. -/
theorem C3_counterexample :
    vadRunEvents cfgEx vadInit [(1/2, 0), (1/2, 50), (1/2, 100), (0, 150), (0, 250), (0, 350)] =
      [[VADEvent.voiceLevel (1/2) (1/2) 0],
       [VADEvent.voiceLevel (1/2) (1/2) 50],
       [VADEvent.voiceLevel (1/2) (1/2) 100],
       [VADEvent.voiceLevel 0 0 150],
       [VADEvent.voiceLevel 0 0 250],
       [VADEvent.voiceLevel 0 0 350]] ∧
    (∀ es ∈ vadRunEvents cfgEx vadInit
        [(1/2, 0), (1/2, 50), (1/2, 100), (0, 150), (0, 250), (0, 350)],
      VADEvent.voiceStart ∉ es ∧ VADEvent.voiceEnd ∉ es) := by
  have h : vadRunEvents cfgEx vadInit
      [(1/2, 0), (1/2, 50), (1/2, 100), (0, 150), (0, 250), (0, 350)] =
      [[VADEvent.voiceLevel (1/2) (1/2) 0],
       [VADEvent.voiceLevel (1/2) (1/2) 50],
       [VADEvent.voiceLevel (1/2) (1/2) 100],
       [VADEvent.voiceLevel 0 0 150],
       [VADEvent.voiceLevel 0 0 250],
       [VADEvent.voiceLevel 0 0 350]] := by
    norm_num [vadRunEvents, vadRun, processVoiceActivity, smoothStep, cfgEx, vadInit]
  refine ⟨h, ?_⟩
  rw [h]
  simp

/-- Claim C3 (amended): for a pending start candidate (non-zero
`voiceStartTime`) and an above-threshold smoothed sample while no voice is
detected, `voiceStart` fires at a tick iff `now - voiceStartTime ≥
minDuration` — hence at the first such tick and at no earlier tick.  With no
candidate pending and a non-zero timestamp the candidate is recorded and no
`voiceStart` fires.  In the concrete scenario shifted off the zero sentinel
(0.5 at t=1, 51, 101, then 0 at t=151, 251, 351), `voiceStart` fires at
t=101 and `voiceEnd` at t=351. -/
theorem C3_amended :
    (∀ (cfg : Config) (s : VADState) (level : ℚ) (now : ℤ),
        s.isVoiceDetected = false → s.voiceStartTime ≠ 0 →
        cfg.threshold < smoothStep cfg s.smoothedLevel level →
        (VADEvent.voiceStart ∈ (processVoiceActivity cfg s level now).2 ↔
          cfg.minDuration ≤ now - s.voiceStartTime)) ∧
    (∀ (cfg : Config) (s : VADState) (level : ℚ) (now : ℤ),
        s.isVoiceDetected = false → s.voiceStartTime = 0 →
        cfg.threshold < smoothStep cfg s.smoothedLevel level →
        VADEvent.voiceStart ∉ (processVoiceActivity cfg s level now).2 ∧
          (processVoiceActivity cfg s level now).1.voiceStartTime = now) ∧
    vadRunEvents cfgEx vadInit [(1/2, 1), (1/2, 51), (1/2, 101), (0, 151), (0, 251), (0, 351)] =
      [[VADEvent.voiceLevel (1/2) (1/2) 1],
       [VADEvent.voiceLevel (1/2) (1/2) 51],
       [VADEvent.voiceLevel (1/2) (1/2) 101, VADEvent.voiceStart],
       [VADEvent.voiceLevel 0 0 151],
       [VADEvent.voiceLevel 0 0 251],
       [VADEvent.voiceLevel 0 0 351, VADEvent.voiceEnd]] := by
  refine ⟨?_, ?_, ?_⟩
  · intro cfg s level now hdet hvst habove
    simp only [processVoiceActivity]
    split_ifs <;> simp_all
  · intro cfg s level now hdet hvst habove
    simp only [processVoiceActivity]
    split_ifs <;> simp_all
  · norm_num [vadRunEvents, vadRun, processVoiceActivity, smoothStep, cfgEx, vadInit]

/-- Witness for the amended C3: with a candidate pending from t=1 under the
scenario config, the tick at t=101 satisfies the firing criterion iff
101 - 1 ≥ minDuration. -/
theorem C3_amended_witness :
    VADEvent.voiceStart ∈ (processVoiceActivity cfgEx sCand (1/2) 101).2 ↔
      cfgEx.minDuration ≤ (101 : ℤ) - sCand.voiceStartTime :=
  C3_amended.1 cfgEx sCand (1/2) 101 (by decide) (by decide)
    (by norm_num [smoothStep, cfgEx, sCand, vadInit])

/-- Claim C4 (counterexample): the state reached from reset by the samples
0.5 at t=1, 0.5 at t=101 (voice starts) and 0 at t=151 (silence candidate
starts) has `voiceStartTime = 1` and `silenceStartTime = 151` — both
hysteresis timers are non-zero simultaneously, because the `voiceStart`
transition never clears `voiceStartTime`. -/
theorem C4_counterexample :
    (vadRunState cfgEx vadInit [(1/2, 1), (1/2, 101), (0, 151)]).voiceStartTime = 1 ∧
    (vadRunState cfgEx vadInit [(1/2, 1), (1/2, 101), (0, 151)]).silenceStartTime = 151 := by
  constructor <;>
    norm_num [vadRunState, List.foldl, processVoiceActivity, smoothStep, cfgEx, vadInit]

/-- Claim C4 (amended): the surviving half of the invariant — in every state
reachable from the reset state by processed samples, if no voice is detected
then the silence-candidate timer is unset (only the start-candidate timer may
run).  While voice is detected the stale start timer may coexist with the
silence timer. -/
theorem C4_amended (cfg : Config) (inputs : List (ℚ × ℤ))
    (hdet : (vadRunState cfg vadInit inputs).isVoiceDetected = false) :
    (vadRunState cfg vadInit inputs).silenceStartTime = 0 :=
  vadRunState_silence_inv cfg inputs vadInit (fun _ => rfl) hdet

/-- Witness for the amended C4: after one below-threshold sample no voice is
detected and the silence timer is unset. -/
theorem C4_amended_witness :
    (vadRunState cfgEx vadInit [((0 : ℚ), (5 : ℤ))]).silenceStartTime = 0 :=
  C4_amended cfgEx [(0, 5)]
    (by norm_num [vadRunState, List.foldl, processVoiceActivity, smoothStep, cfgEx, vadInit])

/-- Claim C5 (counterexample): `stop()` on an active, voice-detected state
performs `isActive := false` as its first action (index 0) and emits
`voiceEnd` only afterwards (index 3), so the `voiceEnd` is *not* emitted
before `active` becomes false. -/
theorem C5_counterexample :
    (stop sSilence).2.1 =
      [StopAction.setActive false, StopAction.cancelFrame,
       StopAction.setVoiceDetected false, StopAction.emit VADEvent.voiceEnd] ∧
    List.indexOf (StopAction.setActive false) ((stop sSilence).2.1) = 0 ∧
    List.indexOf (StopAction.emit VADEvent.voiceEnd) ((stop sSilence).2.1) = 3 := by
  refine ⟨?_, ?_, ?_⟩ <;> decide

/-- Claim C5 (amended): `stop()` while active with voice detected emits
exactly one `voiceEnd`, as the final action and after `isActive` has been
set false and `isVoiceDetected` cleared; the resulting state has
`active = false` and `voiceDetected = false`, so `active=false ∧
voiceDetected=true` is never a terminal state.  `stop()` when inactive
changes nothing and emits nothing, and a second `stop()` performs no
actions. -/
theorem C5_amended (s : VADState) :
    (s.isActive = true → s.isVoiceDetected = true →
      (stop s).2.1.count (StopAction.emit VADEvent.voiceEnd) = 1 ∧
      (stop s).2.1.getLast? = some (StopAction.emit VADEvent.voiceEnd) ∧
      (stop s).2.1.head? = some (StopAction.setActive false) ∧
      (stop s).1.isActive = false ∧ (stop s).1.isVoiceDetected = false ∧
      (stop s).2.2 = true) ∧
    (s.isActive = false → stop s = (s, [], true)) ∧
    stop ((stop s).1) = ((stop s).1, [], true) := by
  refine ⟨fun ha hd => ?_, fun hi => by simp [stop, hi], ?_⟩
  · simp only [stop, ha, hd]
    split_ifs <;> simp_all [List.count]
  · have hoff : (stop s).1.isActive = false := by
      simp only [stop]
      split_ifs <;> simp_all
    conv_lhs => rw [stop]
    simp [hoff]

/-- Witness for the amended C5: the concrete active voice-detected state. -/
theorem C5_amended_witness :
    (stop sSilence).2.1.count (StopAction.emit VADEvent.voiceEnd) = 1 ∧
      (stop sSilence).2.1.getLast? = some (StopAction.emit VADEvent.voiceEnd) ∧
      (stop sSilence).2.1.head? = some (StopAction.setActive false) ∧
      (stop sSilence).1.isActive = false ∧
      (stop sSilence).1.isVoiceDetected = false ∧
      (stop sSilence).2.2 = true :=
  (C5_amended sSilence).1 (by decide) (by decide)

/-- Claim C6 (counterexample): with the default configuration (smoothing
0.85), processing the single sample 1 from the reset state emits a
`voiceLevel` event whose smoothed field is 3/20 — strictly below 1, the
minimum (and maximum) of all inputs seen so far.  The smoothed level is
therefore not bounded below by the minimum input. -/
theorem C6_counterexample :
    (processVoiceActivity defaultConfig vadInit 1 1).2 =
      [VADEvent.voiceLevel 1 (3/20) 1] ∧ (3/20 : ℚ) < 1 := by
  constructor
  · norm_num [processVoiceActivity, smoothStep, defaultConfig, vadInit]
  · norm_num

/-- Claim C6 (amended): for smoothing in [0, 1] and nonnegative inputs, the
smoothed field of every `voiceLevel` event emitted at step `i` of a run from
the reset state lies in [0, max of the inputs seen so far] — the convex hull
of the samples seen together with the reset value 0. -/
theorem C6_amended (cfg : Config) (inputs : List (ℚ × ℤ))
    (h0 : 0 ≤ cfg.smoothing) (h1 : cfg.smoothing ≤ 1)
    (hin : ∀ p ∈ inputs, 0 ≤ p.1) (i : ℕ) (st : VADState) (es : List VADEvent)
    (hget : (vadRun cfg vadInit inputs).get? i = some (st, es))
    (raw sm : ℚ) (ts : ℤ) (hmem : VADEvent.voiceLevel raw sm ts ∈ es) :
    0 ≤ sm ∧ sm ≤ maxLevel (List.take (i + 1) inputs) := by
  have h := vadRun_voiceLevel_bounds cfg inputs vadInit h0 h1 hin (le_refl 0)
    i st es hget raw sm ts hmem
  refine ⟨h.1, ?_⟩
  have h2 := h.2
  rwa [show vadInit.smoothedLevel = (0 : ℚ) from rfl,
    max_eq_right (maxLevel_nonneg _)] at h2

/-- Witness for the amended C6: the default-config single-sample run's
smoothed value 3/20 lies within [0, 1]. -/
theorem C6_amended_witness :
    0 ≤ (3/20 : ℚ) ∧ (3/20 : ℚ) ≤ maxLevel [((1 : ℚ), (1 : ℤ))] :=
  C6_amended defaultConfig [(1, 1)] (by norm_num [defaultConfig])
    (by norm_num [defaultConfig]) (by norm_num) 0
    (processVoiceActivity defaultConfig vadInit 1 1).1
    (processVoiceActivity defaultConfig vadInit 1 1).2 rfl 1 (3/20) 1
    (by norm_num [processVoiceActivity, smoothStep, defaultConfig, vadInit])

/-- Claim C7: while no voice is detected, any below-threshold sample clears
the pending start-candidate timer; and in the concrete scenario (0.5 at t=0,
0 at t=50, 0.5 at t=60, then 0.5 at t=100 and t=160) `voiceStart` fires at
t=160 — not at t=100 — because the debounce restarted at t=60. -/
theorem C7_below_clears_start :
    (∀ (cfg : Config) (s : VADState) (level : ℚ) (now : ℤ),
        s.isVoiceDetected = false →
        smoothStep cfg s.smoothedLevel level ≤ cfg.threshold →
        (processVoiceActivity cfg s level now).1.voiceStartTime = 0) ∧
    vadRunEvents cfgEx vadInit [(1/2, 0), (0, 50), (1/2, 60), (1/2, 100), (1/2, 160)] =
      [[VADEvent.voiceLevel (1/2) (1/2) 0],
       [VADEvent.voiceLevel 0 0 50],
       [VADEvent.voiceLevel (1/2) (1/2) 60],
       [VADEvent.voiceLevel (1/2) (1/2) 100],
       [VADEvent.voiceLevel (1/2) (1/2) 160, VADEvent.voiceStart]] := by
  constructor
  · intro cfg s level now hdet hbelow
    simp only [processVoiceActivity]
    split_ifs <;> simp_all <;> linarith
  · norm_num [vadRunEvents, vadRun, processVoiceActivity, smoothStep, cfgEx, vadInit]

/-- Witness for C7: a below-threshold sample at t=50 clears the candidate
pending from t=1. -/
theorem C7_below_clears_start_witness :
    (processVoiceActivity cfgEx sCand 0 50).1.voiceStartTime = 0 :=
  C7_below_clears_start.1 cfgEx sCand 0 50 (by decide)
    (by norm_num [smoothStep, cfgEx, sCand, vadInit])

/-- Claim C8: `start()` returns failure without any state change when no
audio source is connected; when already active it succeeds, changes nothing
(in particular does not reset `voiceDetected`) and starts no second tick
loop; only on the inactive-to-active transition does it reset all hysteresis
state to "no voice, no timers" and start the analysis loop. -/
theorem C8_start_behavior (s : VADState) :
    (s.isConnected = false → start s = (s, false, false)) ∧
    (s.isConnected = true → s.isActive = true → start s = (s, true, false)) ∧
    (s.isConnected = true → s.isActive = false →
      (start s).2.1 = true ∧ (start s).2.2 = true ∧
      (start s).1.isActive = true ∧ (start s).1.isVoiceDetected = false ∧
      (start s).1.voiceStartTime = 0 ∧ (start s).1.silenceStartTime = 0 ∧
      (start s).1.smoothedLevel = 0 ∧ (start s).1.currentLevel = 0 ∧
      (start s).1.lastVoiceTime = 0) := by
  refine ⟨fun hc => ?_, fun hc ha => ?_, fun hc ha => ?_⟩
  · simp [start, hc]
  · simp [start, hc, ha]
  · simp [start, resetVADState, hc, ha]

/-- Witness for C8: a second `start()` on a connected, already-active
detector with voice detected succeeds and changes nothing. -/
theorem C8_start_behavior_witness :
    start sConnActive = (sConnActive, true, false) :=
  (C8_start_behavior sConnActive).2.1 rfl rfl

/-- Claim C9: when the controller is ready, `setVoiceLevel(level)` clamps the
level to [minVoiceLevel, maxVoiceLevel], sets the player speed to `setSpeed`
of the clamped level (further clamped to the speed range) and the player
opacity to `clamp(clampedLevel/2, minOpacity, maxOpacity)`, both before
returning, and emits `speedChange` followed by `voiceChange` reporting the
clamped level and resulting opacity; when not ready it is a no-op returning
failure. -/
theorem C9_setVoiceLevel_spec (cfg : OrbConfig) (s : OrbState) (level : ℚ) :
    (isReady s = false → setVoiceLevel cfg s level = (s, [], false)) ∧
    (isReady s = true →
      (setVoiceLevel cfg s level).2.2 = true ∧
      (setVoiceLevel cfg s level).1.playerSpeed =
        clamp cfg.minSpeed cfg.maxSpeed
          (clamp cfg.minVoiceLevel cfg.maxVoiceLevel level) ∧
      (setVoiceLevel cfg s level).1.playerOpacity =
        clamp cfg.minOpacity cfg.maxOpacity
          (clamp cfg.minVoiceLevel cfg.maxVoiceLevel level / 2) ∧
      (setVoiceLevel cfg s level).2.1 =
        [OrbEvent.speedChange
            (clamp cfg.minSpeed cfg.maxSpeed
              (clamp cfg.minVoiceLevel cfg.maxVoiceLevel level)),
         OrbEvent.voiceChange (clamp cfg.minVoiceLevel cfg.maxVoiceLevel level)
            (clamp cfg.minOpacity cfg.maxOpacity
              (clamp cfg.minVoiceLevel cfg.maxVoiceLevel level / 2))]) := by
  constructor
  · intro h
    simp [setVoiceLevel, h]
  · intro h
    simp [setVoiceLevel, setSpeed, h]

/-- Witness for C9: the ready controller at level 2 with default config sets
the player speed to the clamped level. -/
theorem C9_setVoiceLevel_spec_witness :
    (setVoiceLevel orbDefaultConfig orbReady 2).1.playerSpeed =
      clamp orbDefaultConfig.minSpeed orbDefaultConfig.maxSpeed
        (clamp orbDefaultConfig.minVoiceLevel orbDefaultConfig.maxVoiceLevel 2) :=
  ((C9_setVoiceLevel_spec orbDefaultConfig orbReady 2).2 rfl).2.1

/-- Claim C10: the orchestrator maps each VAD event to exactly one
controller call — `voiceStart` to `play()`, `voiceEnd` to `pause()`, and
`voiceLevel` to `setVoiceLevel(clamp(smoothed * 3, 0.1, 3))`. -/
theorem C10_wiring (e : VADEvent) :
    (handleVADEvent e).length = 1 ∧
    (e = VADEvent.voiceStart → handleVADEvent e = [ControllerCall.callPlay]) ∧
    (e = VADEvent.voiceEnd → handleVADEvent e = [ControllerCall.callPause]) ∧
    (∀ raw sm ts, e = VADEvent.voiceLevel raw sm ts →
      handleVADEvent e =
        [ControllerCall.callSetVoiceLevel (min 3 (max (1/10) (sm * 3)))]) := by
  refine ⟨?_, fun h => by subst h; rfl, fun h => by subst h; rfl,
    fun raw sm ts h => ?_⟩
  · cases e <;> rfl
  · subst h
    simp only [handleVADEvent]
    rw [clamp_eq_min_max _ _ _ (by norm_num)]

/-- Witness for C10: a `voiceStart` event invokes exactly `play()`. -/
theorem C10_wiring_witness :
    handleVADEvent VADEvent.voiceStart = [ControllerCall.callPlay] :=
  (C10_wiring VADEvent.voiceStart).2.1 rfl

end VoiceOrb
